import Mathlib

/-!
Verification of the VoiceTyping recording/transcription orchestration
subsystem.  The definitions below are a shallow embedding of the
application code (App component): strings are modelled as `List Char`,
the asynchronous provider calls as explicit outcome parameters, and the
single-threaded event handlers as pure state-transition functions.
-/

namespace VoiceTyping

/-- Whitespace test corresponding to the character class of the source
regular expressions over the characters the application manipulates
(the ASCII whitespace characters matched by the JS class). -/
def jsWhitespace (c : Char) : Bool :=
  c == ' ' || c == '\t' || c == '\n' || c == '\r' || c == '\u000B' || c == '\u000C'

/-- JS String.prototype.trim on a character list: whitespace stripped
from both ends. -/
def trimChars (l : List Char) : List Char :=
  ((l.dropWhile jsWhitespace).reverse.dropWhile jsWhitespace).reverse

/-- The test of the source regex on a string: does the last character
exist and belong to the whitespace class. -/
def endsWithWhitespace (l : List Char) : Bool :=
  match l.getLast? with
  | some c => jsWhitespace c
  | none => false

/-- Embedding of insertTextAtCursor: slices the buffer at the saved
cursor position, inserts one separating space when the text before the
cursor is non-empty and does not end with whitespace, and returns the
new buffer together with the cursor moved to the end of the inserted
span. -/
def insertTextAtCursor (buffer : List Char) (pos : Nat) (newText : List Char) :
    List Char × Nat :=
  let before := buffer.take pos
  let after := buffer.drop pos
  let needsSpaceBefore : Bool := decide (0 < before.length) && !endsWithWhitespace before
  let separator : List Char := if needsSpaceBefore then [' '] else []
  (before ++ separator ++ newText ++ after, pos + separator.length + newText.length)

/-- Modelled from the spec wording of the text-merge contract: the
separator is one space exactly when the character immediately before
the cursor exists and is not whitespace, and empty at buffer start or
after whitespace.  Used to compare the source function against the
specified behaviour. -/
def specSeparator (buffer : List Char) (cursor : Nat) : List Char :=
  if cursor = 0 then []
  else
    match buffer[cursor - 1]? with
    | some c => if jsWhitespace c then [] else [' ']
    | none => []

/-- Detects two adjacent space characters somewhere in the list. -/
def hasDoubleSpace : List Char → Bool
  | a :: b :: rest => (a == ' ' && b == ' ') || hasDoubleSpace (b :: rest)
  | _ => false

/-- JS String.prototype.includes on character lists: the pattern occurs
contiguously somewhere in the list. -/
def containsSeq (pat : List Char) : List Char → Bool
  | [] => pat.isEmpty
  | c :: rest => pat.isPrefixOf (c :: rest) || containsSeq pat rest

/-- The speech-to-text providers of the application (closed set). -/
inductive STTProvider
  | gemini
  | openai
  | mistral
deriving DecidableEq, Repr

/-- Validation status of a stored API key. -/
inductive ApiKeyStatus
  | idle
  | validating
  | valid
  | invalid
deriving DecidableEq, Repr

/-- One entry of a provider model catalog. -/
structure STTModel where
  id : List Char
  name : List Char
deriving DecidableEq, Repr

/-- Per-provider configuration record. -/
structure ProviderConfig where
  apiKey : List Char
  apiKeyStatus : ApiKeyStatus
  selectedModel : List Char
  availableModels : List STTModel
  isLoadingModels : Bool
deriving DecidableEq, Repr

/-- The DEFAULT_MODELS table of the source. -/
def DEFAULT_MODELS : STTProvider → List STTModel
  | .gemini =>
      [⟨"gemini-2.0-flash".toList, "Gemini 2.0 Flash".toList⟩,
       ⟨"gemini-2.5-flash".toList, "Gemini 2.5 Flash".toList⟩]
  | .openai =>
      [⟨"whisper-1".toList, "Whisper".toList⟩,
       ⟨"gpt-4o-transcribe".toList, "GPT-4o Transcribe".toList⟩,
       ⟨"gpt-4o-mini-transcribe".toList, "GPT-4o Mini Transcribe".toList⟩]
  | .mistral =>
      [⟨"voxtral-mini-latest".toList, "Voxtral Mini (3B)".toList⟩,
       ⟨"voxtral-small-latest".toList, "Voxtral Small (24B)".toList⟩]

/-- getDefaultConfig: defaults for a provider, with the key migrated
from the persistent store (empty when none is stored). -/
def getDefaultConfig (p : STTProvider) (storedKey : List Char) : ProviderConfig :=
  { apiKey := storedKey
    apiKeyStatus := .idle
    selectedModel := ((DEFAULT_MODELS p).head?.map STTModel.id).getD []
    availableModels := DEFAULT_MODELS p
    isLoadingModels := false }

/-- The three per-provider configuration slots held in component state. -/
structure ProviderConfigs where
  gemini : ProviderConfig
  openai : ProviderConfig
  mistral : ProviderConfig
deriving DecidableEq, Repr

def ProviderConfigs.get (c : ProviderConfigs) : STTProvider → ProviderConfig
  | .gemini => c.gemini
  | .openai => c.openai
  | .mistral => c.mistral

def ProviderConfigs.set (c : ProviderConfigs) : STTProvider → ProviderConfig → ProviderConfigs
  | .gemini, cfg => { c with gemini := cfg }
  | .openai, cfg => { c with openai := cfg }
  | .mistral, cfg => { c with mistral := cfg }

/-- updateProviderConfig applied to the apiKeyStatus field only. -/
def updateStatus (c : ProviderConfigs) (p : STTProvider) (st : ApiKeyStatus) :
    ProviderConfigs :=
  c.set p { c.get p with apiKeyStatus := st }

/-- updateProviderConfig applied to the selectedModel field only (the
model-selection button of the settings view). -/
def selectModel (c : ProviderConfigs) (p : STTProvider) (mid : List Char) :
    ProviderConfigs :=
  c.set p { c.get p with selectedModel := mid }

/-- User-visible status strings of the source. -/
def msgNoApiKey : List Char := "Bitte API Key in den Settings hinterlegen".toList

def msgMicDenied : List Char :=
  "Mikrofon-Zugriff verweigert. Bitte Berechtigung erteilen.".toList

def msgNoSpeech : List Char := "Keine Sprache erkannt. Bitte erneut versuchen.".toList

def msgInvalidKey : List Char := "API Key ungültig".toList

def msgFehler : List Char := "Fehler: ".toList

/-- The no-speech sentinel value the Gemini prompt asks the model to
return. -/
def noSpeechSentinel : List Char := "[KEINE SPRACHE ERKANNT]".toList

/-- The test of the source on a caught transcription error message:
401, 403 or a provider-declared invalid-key response. -/
def isAuthError (msg : List Char) : Bool :=
  containsSeq "401".toList msg || containsSeq "403".toList msg ||
    containsSeq "invalid".toList msg

/-- The sentinel test of the source: strict equality or containment. -/
def sentinelDetected (t : List Char) : Bool :=
  (t == noSpeechSentinel) || containsSeq noSpeechSentinel t

/-- Result of one provider transcription call: the resolved transcript
or a thrown error carrying its message (transport failure or a
provider-declared error). -/
inductive ProviderOutcome
  | ok (transcript : List Char)
  | err (msg : List Char)
deriving DecidableEq, Repr

/-- The mutable component state the orchestration subsystem reads and
writes (buffer, saved cursor, the two in-flight flags, provider
registry, hotkey cooldown stamp) plus a count of currently open
microphone capture sessions. -/
structure AppState where
  transcribedText : List Char
  cursorPos : Nat
  isRecording : Bool
  isTranscribing : Bool
  selectedProvider : STTProvider
  configs : ProviderConfigs
  lastHotkeyTime : Nat
  sessions : Nat
deriving DecidableEq, Repr

/-- The API key of the currently selected provider. -/
def activeKey (s : AppState) : List Char :=
  (s.configs.get s.selectedProvider).apiKey

/-- The body of the transcription try/catch/finally after the provider
call resolved or threw: sentinel handling, cursor insertion, error
classification, and the unconditional clearing of the transcribing
flag by the finally clause. -/
def transcribeFinish (s : AppState) (o : ProviderOutcome) : AppState :=
  let s1 :=
    match o with
    | .ok transcript =>
      if sentinelDetected transcript then
        if s.transcribedText = [] then { s with transcribedText := msgNoSpeech } else s
      else
        let r := insertTextAtCursor s.transcribedText s.cursorPos (trimChars transcript)
        { s with transcribedText := r.1, cursorPos := r.2 }
    | .err msg =>
      if isAuthError msg then
        { s with transcribedText := msgInvalidKey
                 configs := updateStatus s.configs s.selectedProvider .invalid }
      else
        { s with transcribedText := msgFehler ++ msg }
  { s1 with isTranscribing := false }

/-- transcribeAudio (UI path): early return with a placeholder when no
key is configured, otherwise raise the transcribing flag and run the
guarded completion. -/
def transcribeAudio (s : AppState) (o : ProviderOutcome) : AppState :=
  if activeKey s = [] then { s with transcribedText := msgNoApiKey }
  else transcribeFinish { s with isTranscribing := true } o

/-- transcribeAudioFromHotkey: the hotkey twin of transcribeAudio; it
reads the same live state through refs and duplicates the same
sentinel/insert/error logic. -/
def transcribeAudioFromHotkey (s : AppState) (o : ProviderOutcome) : AppState :=
  if activeKey s = [] then { s with transcribedText := msgNoApiKey }
  else transcribeFinish { s with isTranscribing := true } o

/-- startRecording (UI button path): placeholder message when no key is
configured; otherwise the cursor is saved and, when microphone access
is granted, a capture session opens and the recording flag is raised;
a denied microphone surfaces a user-visible message. -/
def startRecording (s : AppState) (micOk : Bool) : AppState :=
  if activeKey s = [] then { s with transcribedText := msgNoApiKey }
  else if micOk then
    { s with cursorPos := s.transcribedText.length
             sessions := s.sessions + 1
             isRecording := true }
  else
    { s with cursorPos := s.transcribedText.length
             transcribedText := msgMicDenied }

/-- The start branch of the hotkey callback: on microphone denial it
only logs, changing no state. -/
def hotkeyStart (s : AppState) (micOk : Bool) : AppState :=
  if micOk then
    { s with cursorPos := s.transcribedText.length
             sessions := s.sessions + 1
             isRecording := true }
  else s

/-- An explicit stop signal: the recording flag clears, the capture
session finalizes and releases the microphone, and transcription of
the finished artifact begins (the onstop handler), raising the
transcribing flag unless no key is configured. -/
def stopAndTranscribe (s : AppState) : AppState :=
  if activeKey s = [] then
    { s with isRecording := false, sessions := s.sessions - 1
             transcribedText := msgNoApiKey }
  else
    { s with isRecording := false, sessions := s.sessions - 1
             isTranscribing := true }

/-- External events driving the Trigger Coordinator: a click of the
record button, a hotkey press at a given clock time, and the
completion of an in-flight provider call. -/
inductive Ev
  | uiClick (micOk : Bool)
  | hotkey (now : Nat) (micOk : Bool)
  | providerDone (o : ProviderOutcome)
deriving DecidableEq, Repr

/-- One step of the Trigger Coordinator.  The button toggles between
start and stop and is disabled while transcribing; the hotkey callback
first applies the 300 ms cooldown, then toggles, starting only when a
key is configured and no transcription is in flight; a provider
completion runs the guarded completion path. -/
def stepEv (s : AppState) : Ev → AppState
  | .uiClick micOk =>
    if s.isTranscribing then s
    else if s.isRecording then stopAndTranscribe s
    else startRecording s micOk
  | .hotkey now micOk =>
    if now - s.lastHotkeyTime < 300 then s
    else if s.isRecording then stopAndTranscribe { s with lastHotkeyTime := now }
    else if activeKey s ≠ [] ∧ s.isTranscribing = false then
      hotkeyStart { s with lastHotkeyTime := now } micOk
    else { s with lastHotkeyTime := now }
  | .providerDone o =>
    if s.isTranscribing then transcribeFinish s o else s

/-- The component state at mount: empty buffer, both flags down, no
session, defaults for every provider with the persisted Gemini key. -/
def initState (geminiKey : List Char) : AppState :=
  { transcribedText := []
    cursorPos := 0
    isRecording := false
    isTranscribing := false
    selectedProvider := .gemini
    configs :=
      { gemini := getDefaultConfig .gemini geminiKey
        openai := getDefaultConfig .openai []
        mistral := getDefaultConfig .mistral [] }
    lastHotkeyTime := 0
    sessions := 0 }

/-- The component state together with the queue of in-flight microphone
acquisitions.  Each start handler of the source suspends at await
getUserMedia between its re-entrancy guard and the creation of the
capture session; an entry records one such suspended handler, oldest
first, with true for the UI button path and false for the hotkey
path. -/
structure AsyncState where
  app : AppState
  pendingMic : List Bool
deriving DecidableEq, Repr

/-- External events of the non-serialized coordinator: button click,
hotkey press, resolution or rejection of the oldest pending microphone
acquisition, and completion of an in-flight provider call. -/
inductive AsyncEv
  | uiClick
  | hotkey (now : Nat)
  | micGranted
  | micDenied
  | providerDone (o : ProviderOutcome)
deriving DecidableEq, Repr

/-- One step of the coordinator with each start handler split at its
await: a start signal that passes the guards only enqueues a pending
acquisition (the recording flag is still down, as in the source where
setIsRecording(true) runs after the await resolves); the session is
created and the flag raised when the acquisition is granted.  The UI
path saves the cursor before its await and reports a denial; the
hotkey path saves the cursor after the await and drops a denial
silently.  Stop and provider completion are as in stepEv. -/
def stepAsync (s : AsyncState) : AsyncEv → AsyncState
  | .uiClick =>
    if s.app.isTranscribing then s
    else if s.app.isRecording then { s with app := stopAndTranscribe s.app }
    else if activeKey s.app = [] then
      { s with app := { s.app with transcribedText := msgNoApiKey } }
    else
      { s with
          app := { s.app with cursorPos := s.app.transcribedText.length }
          pendingMic := s.pendingMic ++ [true] }
  | .hotkey now =>
    if now - s.app.lastHotkeyTime < 300 then s
    else if s.app.isRecording then
      { s with app := stopAndTranscribe { s.app with lastHotkeyTime := now } }
    else if activeKey s.app ≠ [] ∧ s.app.isTranscribing = false then
      { s with
          app := { s.app with lastHotkeyTime := now }
          pendingMic := s.pendingMic ++ [false] }
    else { s with app := { s.app with lastHotkeyTime := now } }
  | .micGranted =>
    match s.pendingMic with
    | [] => s
    | fromUi :: rest =>
      if fromUi then
        { s with
            app := { s.app with sessions := s.app.sessions + 1, isRecording := true }
            pendingMic := rest }
      else
        { s with
            app := { s.app with
                       cursorPos := s.app.transcribedText.length
                       sessions := s.app.sessions + 1
                       isRecording := true }
            pendingMic := rest }
  | .micDenied =>
    match s.pendingMic with
    | [] => s
    | fromUi :: rest =>
      if fromUi then
        { s with
            app := { s.app with transcribedText := msgMicDenied }
            pendingMic := rest }
      else { s with pendingMic := rest }
  | .providerDone o =>
    if s.app.isTranscribing then { s with app := transcribeFinish s.app o } else s

/-- Folding a list of events through the non-serialized coordinator. -/
def runAsync (s : AsyncState) (evs : List AsyncEv) : AsyncState :=
  evs.foldl stepAsync s

/-- The mount state with no pending acquisition. -/
def initAsync (geminiKey : List Char) : AsyncState :=
  { app := initState geminiKey, pendingMic := [] }

/-- One saved transcript of the history store. -/
structure HistoryItem where
  id : List Char
  text : List Char
  timestamp : Nat
deriving DecidableEq, Repr

/-- The history settings and list. -/
structure HistoryState where
  enabled : Bool
  limit : Nat
  items : List HistoryItem
deriving DecidableEq, Repr

/-- The fixed error/placeholder message openings saveToHistory rejects. -/
def errorTexts : List (List Char) :=
  ["Fehler".toList, "Bitte".toList, "API".toList,
   "Keine".toList, "Mikrofon".toList, "Verbindung".toList]

def isErrorText (t : List Char) : Bool :=
  errorTexts.any (fun p => p.isPrefixOf t)

/-- The history item built from the clock value used both as id and
timestamp. -/
def mkHistoryItem (now : Nat) (t : List Char) : HistoryItem :=
  { id := (Nat.repr now).toList, text := t, timestamp := now }

/-- saveToHistory: rejects disabled history, empty or short text, the
known error openings, and an immediate duplicate of the newest item;
otherwise prepends and truncates to a positive limit. -/
def saveToHistory (st : HistoryState) (now : Nat) (text : List Char) : HistoryState :=
  if st.enabled = false ∨ text = [] ∨ text.length < 5 then st
  else if isErrorText text = true then st
  else if st.items.head?.map HistoryItem.text = some text then st
  else
    let newItem := mkHistoryItem now text
    let newHistory := newItem :: st.items
    let newHistory := if 0 < st.limit then newHistory.take st.limit else newHistory
    { st with items := newHistory }

/-- One entry of the Gemini live model catalog as far as the source
reads it: the name, whether generateContent is among the supported
generation methods, and the optional display name. -/
structure GeminiEntry where
  name : List Char
  supportsGenerateContent : Bool
  displayName : Option (List Char)
deriving DecidableEq, Repr

/-- Result of the catalog HTTP call: a non-2xx response, a parsed entry
list, or a thrown transport error. -/
inductive FetchOutcome
  | notOk
  | okEntries (entries : List GeminiEntry)
  | threw
deriving DecidableEq, Repr

/-- JS String.prototype.replace with a plain-string pattern removes the
first occurrence of models/ from a catalog name. -/
def stripModelsPath : List Char → List Char
  | [] => []
  | c :: rest =>
    if "models/".toList.isPrefixOf (c :: rest) then rest.drop 6
    else c :: stripModelsPath rest

/-- The audio-capable filter of the source on Gemini catalog entries. -/
def geminiAudioFilter (entries : List GeminiEntry) : List GeminiEntry :=
  entries.filter fun m =>
    m.supportsGenerateContent &&
      (containsSeq "flash".toList m.name || containsSeq "pro".toList m.name)

/-- The mapping of a filtered Gemini entry to a model, with the display
name falling back to the stripped name when absent or empty. -/
def geminiEntryToModel (m : GeminiEntry) : STTModel :=
  { id := stripModelsPath m.name
    name :=
      match m.displayName with
      | some d => if d = [] then stripModelsPath m.name else d
      | none => stripModelsPath m.name }

/-- The static OpenAI list inside fetchModelsForProvider. -/
def openaiFetchedModels : List STTModel :=
  [⟨"whisper-1".toList, "Whisper".toList⟩,
   ⟨"gpt-4o-transcribe".toList, "GPT-4o Transcribe".toList⟩,
   ⟨"gpt-4o-mini-transcribe".toList, "GPT-4o Mini Transcribe".toList⟩,
   ⟨"gpt-4o-transcribe-diarize".toList, "GPT-4o Diarize (Speaker)".toList⟩]

/-- The static Mistral list inside fetchModelsForProvider. -/
def mistralFetchedModels : List STTModel :=
  [⟨"voxtral-mini-latest".toList, "Voxtral Mini (3B)".toList⟩,
   ⟨"voxtral-small-latest".toList, "Voxtral Small (24B)".toList⟩]

/-- The loading-flag update issued before a fetch. -/
def setLoading (c : ProviderConfigs) (p : STTProvider) : ProviderConfigs :=
  c.set p { c.get p with isLoadingModels := true }

/-- The success update at the end of a fetch: install the model list,
clear the loading flag and mark the key valid. -/
def finishFetch (c1 : ProviderConfigs) (p : STTProvider) (models : List STTModel) :
    ProviderConfigs :=
  c1.set p { c1.get p with
               availableModels := models
               isLoadingModels := false
               apiKeyStatus := .valid }

/-- fetchModelsForProvider: guarded on a key of at least 10 characters;
Gemini consults the live catalog and falls back to the defaults on a
failed response or an empty filter result, the other two providers use
their static lists; success also marks the key valid, while a thrown
lookup only clears the loading flag. -/
def fetchModelsForProvider (c : ProviderConfigs) (p : STTProvider) (o : FetchOutcome) :
    ProviderConfigs :=
  if (c.get p).apiKey = [] ∨ (c.get p).apiKey.length < 10 then c
  else
    match p, o with
    | .gemini, .threw =>
        (setLoading c .gemini).set .gemini
          { (setLoading c .gemini).get .gemini with isLoadingModels := false }
    | .gemini, .notOk =>
        finishFetch (setLoading c .gemini) .gemini (DEFAULT_MODELS .gemini)
    | .gemini, .okEntries entries =>
        if geminiAudioFilter entries = [] then
          finishFetch (setLoading c .gemini) .gemini (DEFAULT_MODELS .gemini)
        else
          finishFetch (setLoading c .gemini) .gemini
            ((geminiAudioFilter entries).map geminiEntryToModel)
    | .openai, _ => finishFetch (setLoading c .openai) .openai openaiFetchedModels
    | .mistral, _ => finishFetch (setLoading c .mistral) .mistral mistralFetchedModels

/-- Result of the key-validation probe request: a response with its ok
flag, or a thrown transport error. -/
inductive ProbeOutcome
  | ok (isValid : Bool)
  | threw
deriving DecidableEq, Repr

/-- validateProviderApiKey: keys shorter than 10 characters reset the
status to idle without any probe; otherwise the probe classifies the
key as valid or invalid (a thrown probe counts as invalid) and a valid
key triggers the model fetch. -/
def validateProviderApiKey (c : ProviderConfigs) (p : STTProvider) (key : List Char)
    (probe : ProbeOutcome) (fo : FetchOutcome) : ProviderConfigs :=
  if key = [] ∨ key.length < 10 then updateStatus c p .idle
  else
    match probe with
    | .threw => updateStatus (updateStatus c p .validating) p .invalid
    | .ok isValid =>
      if isValid then
        fetchModelsForProvider
          (updateStatus (updateStatus c p .validating) p .valid) p fo
      else
        updateStatus (updateStatus c p .validating) p .invalid

lemma getLast?_take (l : List Char) : ∀ n : Nat, n < l.length →
    (l.take (n + 1)).getLast? = l[n]? := by
  induction l with
  | nil => intro n h; simp at h
  | cons a t ih =>
    intro n h
    cases n with
    | zero => simp
    | succ m =>
      cases t with
      | nil => simp at h
      | cons b u =>
        have h1 : (a :: b :: u).take (m + 2) = a :: (b :: u).take (m + 1) := by
          simp [List.take]
        rw [h1]
        have h2 : (b :: u).take (m + 1) = b :: u.take m := by simp [List.take]
        rw [h2, List.getLast?_cons_cons, ← h2, ih m (by simpa using h)]
        simp

lemma hasDoubleSpace_append (xs ys : List Char) :
    hasDoubleSpace (xs ++ ys) =
      (hasDoubleSpace xs || hasDoubleSpace ys ||
        (xs.getLast? == some ' ' && ys.head? == some ' ')) := by
  induction xs with
  | nil => simp [hasDoubleSpace]
  | cons a t ih =>
    cases t with
    | nil =>
      cases ys with
      | nil => simp [hasDoubleSpace]
      | cons b u =>
        simp only [List.singleton_append, hasDoubleSpace, List.getLast?_singleton,
          List.head?_cons]
        cases h1 : (a == ' ') <;> cases h2 : (b == ' ') <;> simp [h1, h2]
    | cons b u =>
      have hshape : (a :: b :: u) ++ ys = a :: ((b :: u) ++ ys) := rfl
      rw [hshape]
      have hunfold : hasDoubleSpace (a :: ((b :: u) ++ ys)) =
          ((a == ' ' && b == ' ') || hasDoubleSpace ((b :: u) ++ ys)) := rfl
      rw [hunfold, ih]
      have hrhs : hasDoubleSpace (a :: b :: u) =
          ((a == ' ' && b == ' ') || hasDoubleSpace (b :: u)) := rfl
      rw [hrhs, List.getLast?_cons_cons]
      simp [Bool.or_assoc]

lemma insertTextAtCursor_eq (buffer : List Char) (cursor : Nat) (t : List Char)
    (h : cursor ≤ buffer.length) :
    insertTextAtCursor buffer cursor t =
      (buffer.take cursor ++ specSeparator buffer cursor ++ t ++ buffer.drop cursor,
       cursor + (specSeparator buffer cursor).length + t.length) := by
  cases cursor with
  | zero => simp [insertTextAtCursor, specSeparator, endsWithWhitespace]
  | succ m =>
    have hm : m < buffer.length := h
    have hget : buffer[m]? = some buffer[m] := List.getElem?_eq_getElem hm
    have hlast : (buffer.take (m + 1)).getLast? = some buffer[m] := by
      rw [getLast?_take buffer m hm, hget]
    have hlen : 0 < (buffer.take (m + 1)).length := by
      simp [List.length_take]; omega
    have hsep : specSeparator buffer (m + 1) =
        (if jsWhitespace buffer[m] then [] else [' ']) := by
      simp [specSeparator, hget]
    unfold insertTextAtCursor
    rw [hsep]
    simp only [endsWithWhitespace, hlast, decide_eq_true hlen, Bool.true_and]
    cases hw : jsWhitespace buffer[m] <;> simp [hw]

/-- C1: the text-merge insert operation returns prefix ++ separator ++
transcript ++ suffix with the cursor moved past the inserted span,
where the separator is one space exactly when the character before the
cursor exists and is not whitespace and empty otherwise; the two
concrete scenarios from the spec hold, and inserting immediately after
whitespace adds no separator and creates no two adjacent spaces. -/
theorem claim_C1 (buffer : List Char) (cursor : Nat) (t : List Char)
    (h : cursor ≤ buffer.length) :
    insertTextAtCursor buffer cursor t =
      (buffer.take cursor ++ specSeparator buffer cursor ++ t ++ buffer.drop cursor,
       cursor + (specSeparator buffer cursor).length + t.length)
    ∧ insertTextAtCursor "Hello".toList 5 "world".toList = ("Hello world".toList, 11)
    ∧ insertTextAtCursor [] 0 "Test".toList = ("Test".toList, 4)
    ∧ (∀ c, 0 < cursor → buffer[cursor - 1]? = some c → jsWhitespace c = true →
        specSeparator buffer cursor = [] ∧
        (hasDoubleSpace buffer = false → hasDoubleSpace t = false →
         t.head? ≠ some ' ' → t.getLast? ≠ some ' ' →
         hasDoubleSpace (insertTextAtCursor buffer cursor t).1 = false)) := by
  refine ⟨insertTextAtCursor_eq buffer cursor t h, by decide, by decide, ?_⟩
  intro c hpos hget hws
  have hsep : specSeparator buffer cursor = [] := by
    have : ¬ cursor = 0 := Nat.pos_iff_ne_zero.mp hpos
    simp [specSeparator, this, hget, hws]
  refine ⟨hsep, ?_⟩
  intro hbuf ht hhead hlast
  rw [insertTextAtCursor_eq buffer cursor t h, hsep]
  simp only [List.append_nil]
  -- decompose the original buffer at the cursor
  have hsplit : buffer = buffer.take cursor ++ buffer.drop cursor :=
    (List.take_append_drop cursor buffer).symm
  have hbuf' : hasDoubleSpace (buffer.take cursor ++ buffer.drop cursor) = false := by
    rw [← hsplit]; exact hbuf
  rw [hasDoubleSpace_append] at hbuf'
  have htake : hasDoubleSpace (buffer.take cursor) = false := by
    rcases Bool.or_eq_false_iff.mp (Bool.or_eq_false_iff.mp hbuf').1 with ⟨h1, _⟩
    exact h1
  have hdrop : hasDoubleSpace (buffer.drop cursor) = false := by
    rcases Bool.or_eq_false_iff.mp (Bool.or_eq_false_iff.mp hbuf').1 with ⟨_, h2⟩
    exact h2
  have hjunction : ((buffer.take cursor).getLast? == some ' ' &&
      (buffer.drop cursor).head? == some ' ') = false :=
    (Bool.or_eq_false_iff.mp hbuf').2
  have hta : hasDoubleSpace (t ++ buffer.drop cursor) = false := by
    rw [hasDoubleSpace_append, ht, hdrop]
    cases t with
    | nil => simp
    | cons c0 rest =>
      have : ((c0 :: rest).getLast? == some ' ') = false := by
        cases hq : ((c0 :: rest).getLast? == some ' ')
        · rfl
        · exact absurd (eq_of_beq hq) hlast
      simp [this]
  have hassoc : buffer.take cursor ++ t ++ buffer.drop cursor =
      buffer.take cursor ++ (t ++ buffer.drop cursor) := by
    simp [List.append_assoc]
  rw [hassoc, hasDoubleSpace_append, htake, hta]
  cases t with
  | nil =>
    simpa using hjunction
  | cons c0 rest =>
    have hc0 : ¬ c0 = ' ' := by
      intro hcontra
      exact hhead (by simp [hcontra])
    simp [hc0]

/-- Witness for C1 at a concrete input whose prefix ends in whitespace:
the separator is empty and no double space appears. -/
theorem claim_C1_witness :
    insertTextAtCursor "Hi ".toList 3 "x".toList = ("Hi x".toList, 4)
    ∧ hasDoubleSpace (insertTextAtCursor "Hi ".toList 3 "x".toList).1 = false := by
  have h := claim_C1 "Hi ".toList 3 "x".toList (by decide)
  have h4 := h.2.2.2 ' ' (by decide) (by decide) (by decide)
  refine ⟨?_, h4.2 (by decide) (by decide) (by decide) (by decide)⟩
  rw [h.1]
  decide

lemma get_set_same (c : ProviderConfigs) (p : STTProvider) (cfg : ProviderConfig) :
    (c.set p cfg).get p = cfg := by
  cases p <;> rfl

lemma get_updateStatus (c : ProviderConfigs) (p : STTProvider) (st : ApiKeyStatus) :
    (updateStatus c p st).get p = { c.get p with apiKeyStatus := st } := by
  cases p <;> rfl

lemma transcribeFinish_fields (s : AppState) (o : ProviderOutcome) :
    (transcribeFinish s o).isRecording = s.isRecording
    ∧ (transcribeFinish s o).sessions = s.sessions
    ∧ (transcribeFinish s o).isTranscribing = false
    ∧ (transcribeFinish s o).selectedProvider = s.selectedProvider := by
  cases o <;>
    (refine ⟨?_, ?_, ?_, ?_⟩ <;> simp [transcribeFinish] <;> split_ifs <;> rfl)

/-- C2: for every transcription run started from either entry point on
a configured key, the transcribing flag is false again when the run
completes, whatever the provider outcome (text, sentinel, or thrown
error); likewise every provider-completion event leaves the
coordinator out of the Transcribing state. -/
theorem claim_C2 (s : AppState) (o : ProviderOutcome) (h : activeKey s ≠ []) :
    (transcribeAudio s o).isTranscribing = false
    ∧ (transcribeAudioFromHotkey s o).isTranscribing = false
    ∧ ∀ (s2 : AppState) (o2 : ProviderOutcome),
        (stepEv s2 (.providerDone o2)).isTranscribing = false := by
  refine ⟨?_, ?_, ?_⟩
  · unfold transcribeAudio
    rw [if_neg h]
    exact (transcribeFinish_fields _ o).2.2.1
  · unfold transcribeAudioFromHotkey
    rw [if_neg h]
    exact (transcribeFinish_fields _ o).2.2.1
  · intro s2 o2
    simp only [stepEv]
    by_cases ht : s2.isTranscribing = true
    · rw [if_pos ht]
      exact (transcribeFinish_fields s2 o2).2.2.1
    · rw [if_neg ht]
      simpa using ht

/-- Witness for C2 at the mount state with a stored ten-character key
and a plain transcript. -/
theorem claim_C2_witness :
    (transcribeAudio (initState "0123456789".toList) (.ok "hallo".toList)).isTranscribing
      = false := by
  exact (claim_C2 (initState "0123456789".toList) (.ok "hallo".toList) (by decide)).1

/-- C7: a transcription failure whose message carries 401, 403 or a
provider-declared invalid marker downgrades the active provider's key
status to invalid and puts the fixed invalid-key message into the
buffer, on both entry points. -/
theorem claim_C7 (s : AppState) (msg : List Char) (h : activeKey s ≠ [])
    (ha : isAuthError msg = true) :
    (transcribeAudio s (.err msg)).transcribedText = msgInvalidKey
    ∧ ((transcribeAudio s (.err msg)).configs.get s.selectedProvider).apiKeyStatus
        = .invalid
    ∧ (transcribeAudioFromHotkey s (.err msg)).transcribedText = msgInvalidKey
    ∧ ((transcribeAudioFromHotkey s (.err msg)).configs.get s.selectedProvider).apiKeyStatus
        = .invalid := by
  have hbody :
      (transcribeFinish { s with isTranscribing := true } (.err msg)).transcribedText
        = msgInvalidKey
      ∧ ((transcribeFinish { s with isTranscribing := true } (.err msg)).configs.get
            s.selectedProvider).apiKeyStatus = .invalid := by
    constructor
    · simp [transcribeFinish, ha]
    · simp [transcribeFinish, ha, get_updateStatus]
  refine ⟨?_, ?_, ?_, ?_⟩ <;>
    simp only [transcribeAudio, transcribeAudioFromHotkey, if_neg h] <;>
    first
      | exact hbody.1
      | exact hbody.2

/-- Witness for C7 at the mount state and a message containing 401. -/
theorem claim_C7_witness :
    (transcribeAudio (initState "0123456789".toList) (.err "HTTP 401".toList)).transcribedText
      = msgInvalidKey := by
  exact (claim_C7 (initState "0123456789".toList) "HTTP 401".toList
    (by decide) (by decide)).1

/-- C9: the three completion outcomes stay distinct: a sentinel-bearing
transcript is never inserted (empty buffer becomes the fixed no-speech
message, which differs from the sentinel; a non-empty buffer and the
cursor stay untouched), a thrown error produces an error message, and
ordinary text is trimmed and inserted at the saved cursor. -/
theorem claim_C9 (s : AppState) (h : activeKey s ≠ []) :
    (∀ t, sentinelDetected t = true → s.transcribedText = [] →
        (transcribeAudio s (.ok t)).transcribedText = msgNoSpeech
        ∧ msgNoSpeech ≠ noSpeechSentinel)
    ∧ (∀ t, sentinelDetected t = true → s.transcribedText ≠ [] →
        (transcribeAudio s (.ok t)).transcribedText = s.transcribedText
        ∧ (transcribeAudio s (.ok t)).cursorPos = s.cursorPos)
    ∧ (∀ msg, (transcribeAudio s (.err msg)).transcribedText =
        (if isAuthError msg then msgInvalidKey else msgFehler ++ msg))
    ∧ (∀ t, sentinelDetected t = false →
        (transcribeAudio s (.ok t)).transcribedText =
          (insertTextAtCursor s.transcribedText s.cursorPos (trimChars t)).1
        ∧ (transcribeAudio s (.ok t)).cursorPos =
          (insertTextAtCursor s.transcribedText s.cursorPos (trimChars t)).2) := by
  refine ⟨?_, ?_, ?_, ?_⟩
  · intro t hsent hempty
    refine ⟨?_, by decide⟩
    simp [transcribeAudio, if_neg h, transcribeFinish, hsent, hempty]
  · intro t hsent hne
    constructor <;> simp [transcribeAudio, if_neg h, transcribeFinish, hsent, hne]
  · intro msg
    by_cases ha : isAuthError msg = true
    · simp [transcribeAudio, if_neg h, transcribeFinish, ha]
    · simp only [Bool.not_eq_true] at ha
      simp [transcribeAudio, if_neg h, transcribeFinish, ha]
  · intro t hsent
    constructor <;> simp [transcribeAudio, if_neg h, transcribeFinish, hsent]

/-- Witness for C9: the sentinel on an empty buffer yields the fixed
no-speech message, and a plain transcript is inserted. -/
theorem claim_C9_witness :
    (transcribeAudio (initState "0123456789".toList)
        (.ok noSpeechSentinel)).transcribedText = msgNoSpeech
    ∧ (transcribeAudio (initState "0123456789".toList)
        (.ok " Hallo Welt ".toList)).transcribedText = "Hallo Welt".toList := by
  have h := claim_C9 (initState "0123456789".toList) (by decide)
  refine ⟨(h.1 noSpeechSentinel (by decide) rfl).1, ?_⟩
  rw [(h.2.2.2 " Hallo Welt ".toList (by decide)).1]
  decide

/-- C5: saveToHistory is a no-op on disabled history, short text, the
fixed error openings, and an immediate duplicate of the newest entry;
otherwise it prepends one item and truncates to a positive limit; a
second call with the same text never adds a second entry. -/
theorem claim_C5 (st : HistoryState) (now n2 : Nat) (t : List Char) :
    (st.enabled = false → saveToHistory st now t = st)
    ∧ (t.length < 5 → saveToHistory st now t = st)
    ∧ (isErrorText t = true → saveToHistory st now t = st)
    ∧ (st.items.head?.map HistoryItem.text = some t → saveToHistory st now t = st)
    ∧ (st.enabled = true → ¬ t.length < 5 → isErrorText t = false →
        st.items.head?.map HistoryItem.text ≠ some t →
        (saveToHistory st now t).items =
          (if 0 < st.limit then (mkHistoryItem now t :: st.items).take st.limit
           else mkHistoryItem now t :: st.items))
    ∧ saveToHistory (saveToHistory st now t) n2 t = saveToHistory st now t := by
  refine ⟨?_, ?_, ?_, ?_, ?_, ?_⟩
  · intro h; unfold saveToHistory; rw [if_pos (Or.inl h)]
  · intro h; unfold saveToHistory; rw [if_pos (Or.inr (Or.inr h))]
  · intro h
    unfold saveToHistory
    by_cases h1 : st.enabled = false ∨ t = [] ∨ t.length < 5
    · rw [if_pos h1]
    · rw [if_neg h1, if_pos h]
  · intro h
    unfold saveToHistory
    by_cases h1 : st.enabled = false ∨ t = [] ∨ t.length < 5
    · rw [if_pos h1]
    · by_cases h2 : isErrorText t = true
      · rw [if_neg h1, if_pos h2]
      · rw [if_neg h1, if_neg h2, if_pos h]
  · intro hEn hLen hErr hHead
    have hne : ¬(st.enabled = false ∨ t = [] ∨ t.length < 5) := by
      push_neg
      refine ⟨by simp [hEn], ?_, by omega⟩
      intro hcontra
      exact hLen (by simp [hcontra])
    unfold saveToHistory
    rw [if_neg hne, if_neg (by simp [hErr]), if_neg hHead]
  · by_cases h1 : st.enabled = false ∨ t = [] ∨ t.length < 5
    · have e1 : saveToHistory st now t = st := by
        unfold saveToHistory; rw [if_pos h1]
      rw [e1]
      unfold saveToHistory; rw [if_pos h1]
    · by_cases h2 : isErrorText t = true
      · have e1 : saveToHistory st now t = st := by
          unfold saveToHistory; rw [if_neg h1, if_pos h2]
        rw [e1]
        unfold saveToHistory; rw [if_neg h1, if_pos h2]
      · by_cases h3 : st.items.head?.map HistoryItem.text = some t
        · have e1 : saveToHistory st now t = st := by
            unfold saveToHistory; rw [if_neg h1, if_neg h2, if_pos h3]
          rw [e1]
          unfold saveToHistory; rw [if_neg h1, if_neg h2, if_pos h3]
        · have e1 : saveToHistory st now t =
              { st with items :=
                  if 0 < st.limit then (mkHistoryItem now t :: st.items).take st.limit
                  else mkHistoryItem now t :: st.items } := by
            unfold saveToHistory
            rw [if_neg h1, if_neg h2, if_neg h3]
          rw [e1]
          unfold saveToHistory
          rw [if_neg h1, if_neg h2, if_pos ?_]
          by_cases hl : 0 < st.limit
          · obtain ⟨k, hk⟩ : ∃ k, st.limit = k + 1 := ⟨st.limit - 1, by omega⟩
            simp [hl, hk, mkHistoryItem]
          · simp [hl, mkHistoryItem]

/-- Witness for C5: recording hello appends one entry and a second
record of the same text changes nothing. -/
theorem claim_C5_witness :
    (saveToHistory ⟨true, 25, []⟩ 7 "hello".toList).items
      = [mkHistoryItem 7 "hello".toList]
    ∧ saveToHistory (saveToHistory ⟨true, 25, []⟩ 7 "hello".toList) 9 "hello".toList
      = saveToHistory ⟨true, 25, []⟩ 7 "hello".toList := by
  have h := claim_C5 ⟨true, 25, []⟩ 7 9 "hello".toList
  refine ⟨?_, h.2.2.2.2.2⟩
  rw [h.2.2.2.2.1 rfl (by decide) (by decide) (by decide)]
  decide

/-- C3: evaluation of the source behaviour at the failing input for
the single-session claim.  The hotkey debounce does discard a second
hotkey signal 50 ms after the first; but two UI clicks 50 ms apart
while the first click's microphone acquisition is still pending both
pass the isRecording guard (the flag is still false after the first
click, since the source sets it only after await getUserMedia), enqueue
two acquisitions, and once both are granted two capture sessions are
open at the same time, contradicting the claimed invariant. -/
theorem claim_C3 :
    stepAsync (stepAsync (initAsync "0123456789".toList) (.hotkey 1000))
        (.hotkey 1050)
      = stepAsync (initAsync "0123456789".toList) (.hotkey 1000)
    ∧ (stepAsync (initAsync "0123456789".toList) .uiClick).app.isRecording = false
    ∧ (runAsync (initAsync "0123456789".toList)
        [.uiClick, .uiClick]).pendingMic.length = 2
    ∧ (runAsync (initAsync "0123456789".toList)
        [.uiClick, .uiClick, .micGranted, .micGranted]).app.sessions = 2 := by
  decide

/-- Counterexample to C4 as stated: with an empty key, a hotkey start
signal outside the cooldown is rejected without opening a session, but
the buffer is left empty instead of being set to the placeholder
message. -/
theorem claim_C4_counterexample :
    activeKey (initState []) = []
    ∧ (stepEv (initState []) (.hotkey 1000 true)).transcribedText = []
    ∧ (stepEv (initState []) (.hotkey 1000 true)).transcribedText ≠ msgNoApiKey
    ∧ (stepEv (initState []) (.hotkey 1000 true)).isRecording = false
    ∧ (stepEv (initState []) (.hotkey 1000 true)).sessions = 0 := by
  decide

/-- C4 amended: with an empty key for the active provider a start
signal never opens a session and the state stays Idle; the UI entry
point additionally sets the placeholder message asking for a key,
while the hotkey entry point rejects silently, updating only its
cooldown stamp. -/
theorem claim_C4 (s : AppState) (h : activeKey s = []) :
    (∀ m, s.isRecording = false → s.isTranscribing = false →
        stepEv s (.uiClick m) = { s with transcribedText := msgNoApiKey })
    ∧ (∀ (now : Nat) (m : Bool), ¬ now - s.lastHotkeyTime < 300 →
        s.isRecording = false →
        stepEv s (.hotkey now m) = { s with lastHotkeyTime := now }) := by
  constructor
  · intro m hr ht
    simp [stepEv, hr, ht, startRecording, h]
  · intro now m hc hr
    simp only [stepEv]
    rw [if_neg hc, if_neg (by simp [hr]), if_neg (by intro hcon; exact hcon.1 h)]

/-- Witness for C4: the UI path at the mount state without a key. -/
theorem claim_C4_witness :
    stepEv (initState []) (.uiClick true)
      = { initState [] with transcribedText := msgNoApiKey } := by
  exact (claim_C4 (initState []) rfl).1 true rfl rfl

lemma fetch_guard (c : ProviderConfigs) (p : STTProvider)
    (hkey : 10 ≤ (c.get p).apiKey.length) :
    ¬((c.get p).apiKey = [] ∨ (c.get p).apiKey.length < 10) := by
  rintro (hnil | hlt)
  · rw [hnil] at hkey
    simp at hkey
  · omega

lemma get_setLoading (c : ProviderConfigs) (p : STTProvider) :
    (setLoading c p).get p = { c.get p with isLoadingModels := true } := by
  unfold setLoading
  rw [get_set_same]

lemma get_finishFetch (c1 : ProviderConfigs) (p : STTProvider) (models : List STTModel) :
    (finishFetch c1 p models).get p =
      { c1.get p with
          availableModels := models
          isLoadingModels := false
          apiKeyStatus := .valid } := by
  unfold finishFetch
  rw [get_set_same]

lemma fetch_selectedModel (c : ProviderConfigs) (p : STTProvider) (o : FetchOutcome) :
    ((fetchModelsForProvider c p o).get p).selectedModel = (c.get p).selectedModel := by
  unfold fetchModelsForProvider
  by_cases hg : (c.get p).apiKey = [] ∨ (c.get p).apiKey.length < 10
  · rw [if_pos hg]
  · rw [if_neg hg]
    cases p <;> cases o <;>
        simp only [get_finishFetch, get_setLoading, get_set_same]
    split <;> simp [get_finishFetch, get_setLoading]

/-- C6: with a key long enough to pass the fetch guard, the model
fetch never leaves availableModels empty: the Gemini path falls back
to the default list on a failed response or an empty audio filter, the
two static providers always install their non-empty static lists, and
a thrown lookup preserves the previous non-empty list. -/
theorem claim_C6 (c : ProviderConfigs) (p : STTProvider) (o : FetchOutcome)
    (hkey : 10 ≤ (c.get p).apiKey.length)
    (hprev : (c.get p).availableModels ≠ []) :
    ((fetchModelsForProvider c p o).get p).availableModels ≠ []
    ∧ (p = .gemini → o = .notOk →
        ((fetchModelsForProvider c p o).get p).availableModels = DEFAULT_MODELS .gemini)
    ∧ (∀ entries, p = .gemini → o = .okEntries entries → geminiAudioFilter entries = [] →
        ((fetchModelsForProvider c p o).get p).availableModels = DEFAULT_MODELS .gemini)
    ∧ (p = .openai →
        ((fetchModelsForProvider c p o).get p).availableModels = openaiFetchedModels
        ∧ openaiFetchedModels ≠ [])
    ∧ (p = .mistral →
        ((fetchModelsForProvider c p o).get p).availableModels = mistralFetchedModels
        ∧ mistralFetchedModels ≠ []) := by
  have hguard := fetch_guard c p hkey
  refine ⟨?_, ?_, ?_, ?_, ?_⟩
  · unfold fetchModelsForProvider
    rw [if_neg hguard]
    cases p <;> cases o <;>
        simp [get_finishFetch, get_setLoading, get_set_same, openaiFetchedModels,
          mistralFetchedModels, DEFAULT_MODELS]
    case gemini.threw => simpa using hprev
    case gemini.okEntries entries =>
      split <;> simp_all [get_finishFetch, get_setLoading, DEFAULT_MODELS,
        List.map_eq_nil_iff]
  · rintro rfl rfl
    unfold fetchModelsForProvider
    rw [if_neg hguard]
    simp [get_finishFetch, get_setLoading]
  · rintro entries rfl rfl hfilter
    unfold fetchModelsForProvider
    rw [if_neg hguard]
    simp [hfilter, get_finishFetch, get_setLoading]
  · rintro rfl
    unfold fetchModelsForProvider
    rw [if_neg hguard]
    cases o <;> simp [get_finishFetch, get_setLoading, openaiFetchedModels]
  · rintro rfl
    unfold fetchModelsForProvider
    rw [if_neg hguard]
    cases o <;> simp [get_finishFetch, get_setLoading, mistralFetchedModels]

/-- Witness for C6: the defaults are installed for Gemini on a failed
catalog response with a ten-character key. -/
theorem claim_C6_witness :
    ((fetchModelsForProvider (initState "0123456789".toList).configs .gemini
        .notOk).get .gemini).availableModels = DEFAULT_MODELS .gemini := by
  exact (claim_C6 (initState "0123456789".toList).configs .gemini .notOk
    (by decide) (by decide)).2.1 rfl rfl

/-- Counterexample to C8 as stated: a completed Gemini live fetch that
returns a catalog without the currently selected default model leaves
selectedModel outside availableModels. -/
theorem claim_C8_counterexample :
    ¬(((fetchModelsForProvider (initState "0123456789".toList).configs .gemini
          (.okEntries [⟨"models/gemini-1.5-pro".toList, true, none⟩])).get
            .gemini).selectedModel ∈
        ((fetchModelsForProvider (initState "0123456789".toList).configs .gemini
          (.okEntries [⟨"models/gemini-1.5-pro".toList, true, none⟩])).get
            .gemini).availableModels.map STTModel.id) := by
  decide

/-- C8 amended: a completed model fetch replaces availableModels but
leaves the selected model id unchanged, so membership of the selected
model in the fetched list is not re-established by the fetch; it is
established by the model-selection operation, whose chosen id comes
from availableModels, and preserved by key-status updates, which touch
neither field. -/
theorem claim_C8 (c : ProviderConfigs) (p : STTProvider) (o : FetchOutcome)
    (mid : List Char) (hmem : mid ∈ (c.get p).availableModels.map STTModel.id) :
    ((fetchModelsForProvider c p o).get p).selectedModel = (c.get p).selectedModel
    ∧ ((selectModel c p mid).get p).selectedModel ∈
        ((selectModel c p mid).get p).availableModels.map STTModel.id
    ∧ (∀ stt : ApiKeyStatus,
        ((updateStatus c p stt).get p).selectedModel = (c.get p).selectedModel
        ∧ ((updateStatus c p stt).get p).availableModels
            = (c.get p).availableModels) := by
  refine ⟨fetch_selectedModel c p o, ?_, ?_⟩
  · unfold selectModel
    rw [get_set_same]
    simpa using hmem
  · intro stt
    rw [get_updateStatus]
    exact ⟨rfl, rfl⟩

/-- Witness for C8 at the mount configuration, selecting the second
default Gemini model. -/
theorem claim_C8_witness :
    ((selectModel (initState [] ).configs .gemini "gemini-2.5-flash".toList).get
        .gemini).selectedModel ∈
      ((selectModel (initState [] ).configs .gemini "gemini-2.5-flash".toList).get
        .gemini).availableModels.map STTModel.id := by
  exact (claim_C8 (initState []).configs .gemini .notOk "gemini-2.5-flash".toList
    (by decide)).2.1

/-- C10: a key shorter than ten characters makes validation reset the
status to idle without consulting any probe (never valid or invalid),
makes the model fetch a no-op, and yet a short non-empty key still
lets a recording start. -/
theorem claim_C10 (c : ProviderConfigs) (p : STTProvider) (key : List Char)
    (hshort : key.length < 10) :
    (∀ probe fo, validateProviderApiKey c p key probe fo = updateStatus c p .idle)
    ∧ ((updateStatus c p .idle).get p).apiKeyStatus = .idle
    ∧ ((updateStatus c p .idle).get p).apiKeyStatus ≠ .valid
    ∧ ((updateStatus c p .idle).get p).apiKeyStatus ≠ .invalid
    ∧ (∀ o, (c.get p).apiKey.length < 10 → fetchModelsForProvider c p o = c)
    ∧ (∀ s : AppState, activeKey s ≠ [] → s.isRecording = false →
        s.isTranscribing = false →
        (stepEv s (.uiClick true)).isRecording = true
        ∧ (stepEv s (.uiClick true)).sessions = s.sessions + 1) := by
  refine ⟨?_, ?_, ?_, ?_, ?_, ?_⟩
  · intro probe fo
    unfold validateProviderApiKey
    rw [if_pos (Or.inr hshort)]
  · rw [get_updateStatus]
  · rw [get_updateStatus]; simp
  · rw [get_updateStatus]; simp
  · intro o hlen
    unfold fetchModelsForProvider
    rw [if_pos (Or.inr hlen)]
  · intro s hk hr ht
    have hstep : stepEv s (.uiClick true) = startRecording s true := by
      simp only [stepEv]
      rw [if_neg (by simp [ht]), if_neg (by simp [hr])]
    rw [hstep]
    unfold startRecording
    rw [if_neg hk, if_pos rfl]
    exact ⟨rfl, rfl⟩

/-- Witness for C10 with a five-character key: validation parks the
status at idle and the UI button still starts a recording. -/
theorem claim_C10_witness :
    validateProviderApiKey (initState "short".toList).configs .gemini
        "short".toList (.ok true) .notOk
      = updateStatus (initState "short".toList).configs .gemini .idle
    ∧ (stepEv (initState "short".toList) (.uiClick true)).isRecording = true := by
  have h := claim_C10 (initState "short".toList).configs .gemini "short".toList
    (by decide)
  exact ⟨h.1 (.ok true) .notOk,
    (h.2.2.2.2.2 (initState "short".toList) (by decide) rfl rfl).1⟩

end VoiceTyping
